import Mathlib

/-!
Verification of the `beating_heart` widget (`src/main.rs`).

The program is a single druid widget, `HeartWidget`, over an application
state holding one `f64` field `time`.  Floating-point arithmetic is
modelled over the real numbers `ℝ`, matching the real-valued statements of
the specification.  Each definition below embeds the named item of
`src/main.rs`; host-side context objects (`EventCtx`, `LifeCycleCtx`,
`PaintCtx`) are modelled by the observable requests and draw commands the
widget issues through them.
-/

noncomputable section

namespace BeatingHeart

/-- `druid::kurbo::Point`: a 2D point with `x` and `y` coordinates. -/
@[ext]
structure Point where
  x : ℝ
  y : ℝ

/-- `druid::Size`: a width/height pair. -/
@[ext]
structure Size where
  width : ℝ
  height : ℝ

/-- The application state (`struct AppState { time: f64 }`). -/
structure AppState where
  time : ℝ

/-- The druid events relevant to `HeartWidget::event`: an `AnimFrame`
event carrying a nanosecond delta, or any other event (the handler only
matches `Event::AnimFrame(_)`). -/
inductive Event where
  | animFrame (nanos : ℕ)
  | other
deriving DecidableEq

/-- The druid lifecycle signals relevant to `HeartWidget::lifecycle`:
`WidgetAdded`, or any other lifecycle event. -/
inductive LifeCycle where
  | widgetAdded
  | other
deriving DecidableEq

/-- The observable effect of a widget callback on its context: how many
`request_anim_frame` and how many `request_paint` calls it issued. -/
structure CtxRequests where
  animFrameRequests : ℕ
  paintRequests : ℕ
deriving DecidableEq

/-- `HeartWidget::event` (src/main.rs lines 28–40): on `Event::AnimFrame`,
add `0.016` to `data.time`, call `ctx.request_anim_frame()` once and
`ctx.request_paint()` once; any other event is ignored.  Returns the
updated state together with the requests issued. -/
def HeartWidget.event (e : Event) (data : AppState) : AppState × CtxRequests :=
  match e with
  | .animFrame _ => (⟨data.time + 0.016⟩, ⟨1, 1⟩)
  | .other => (data, ⟨0, 0⟩)

/-- `HeartWidget::lifecycle` (src/main.rs lines 53–64): on
`LifeCycle::WidgetAdded`, call `ctx.request_anim_frame()` once; any other
lifecycle event is ignored.  `data` is taken by shared reference, so the
state cannot change; the function returns the requests issued. -/
def HeartWidget.lifecycle (e : LifeCycle) (_data : AppState) : CtxRequests :=
  match e with
  | .widgetAdded => ⟨1, 0⟩
  | .other => ⟨0, 0⟩

/-- `HeartWidget::update` (src/main.rs line 66): an empty body. -/
def HeartWidget.update (_oldData _data : AppState) : Unit := ()

/-- `druid::BoxConstraints`: minimum and maximum sizes. -/
structure BoxConstraints where
  minSize : Size
  maxSize : Size

/-- `BoxConstraints::max`: the maximum size allowed by the constraints. -/
def BoxConstraints.max (bc : BoxConstraints) : Size := bc.maxSize

/-- `HeartWidget::layout` (src/main.rs lines 84–92): returns `bc.max()`,
making the widget fill the window. -/
def HeartWidget.layout (bc : BoxConstraints) (_data : AppState) : Size := bc.max

/-- A `druid::kurbo::BezPath` element: `move_to`, `curve_to` (cubic bezier
with two control points and an end point), or `close_path`. -/
inductive PathEl where
  | moveTo (p : Point)
  | curveTo (p1 p2 p3 : Point)
  | closePath

/-- `druid::piet::Color` restricted to `Color::rgb8`. -/
structure Color where
  r : ℕ
  g : ℕ
  b : ℕ
deriving DecidableEq

/-- `Color::rgb8`. -/
def Color.rgb8 (r g b : ℕ) : Color := ⟨r, g, b⟩

/-- A draw command issued through the `PaintCtx`: `ctx.stroke(path, color,
width)` or `ctx.fill(path, color)`. -/
inductive DrawCommand where
  | stroke (path : List PathEl) (color : Color) (w : ℝ)
  | fill (path : List PathEl) (color : Color)

/-- The scale factor computed in `HeartWidget::paint` (src/main.rs
line 109): `let scale = 1.0 + 0.1 * f64::sin(data.time * 3.0)`. -/
def scaleFactor (time : ℝ) : ℝ := 1.0 + 0.1 * Real.sin (time * 3.0)

/-- The `width` local of `HeartWidget::paint` (src/main.rs line 113):
`size.width.min(size.height) * 0.25 * scale`. -/
def heartWidth (size : Size) (time : ℝ) : ℝ :=
  min size.width size.height * 0.25 * scaleFactor time

/-- The `height` local of `HeartWidget::paint` (src/main.rs line 114):
`size.width.min(size.height) * 0.48 * scale`. -/
def heartHeight (size : Size) (time : ℝ) : ℝ :=
  min size.width size.height * 0.48 * scaleFactor time

/-- The heart bezier path built in `HeartWidget::paint` (src/main.rs
lines 112–133): move to the bottom tip, curve through the left lobe to
the top notch, curve through the right lobe back to the bottom tip,
close. -/
def heartPath (size : Size) (time : ℝ) : List PathEl :=
  let center : Point := ⟨size.width / 2.0, size.height / 2.0⟩
  let scale : ℝ := 1.0 + 0.1 * Real.sin (time * 3.0)
  let width : ℝ := min size.width size.height * 0.25 * scale
  let height : ℝ := min size.width size.height * 0.48 * scale
  [.moveTo ⟨center.x, center.y + height / 2.0⟩,
   .curveTo ⟨center.x - width, center.y + height / 4.0⟩
     ⟨center.x - width, center.y - height / 2.0⟩
     ⟨center.x, center.y - height / 4.0⟩,
   .curveTo ⟨center.x + width, center.y - height / 2.0⟩
     ⟨center.x + width, center.y + height / 4.0⟩
     ⟨center.x, center.y + height / 2.0⟩,
   .closePath]

/-- `HeartWidget::paint` (src/main.rs lines 106–139): build the heart path
from `ctx.size()` and `data.time`, then stroke it in black with width 4.0
and fill it with red.  `size` models `ctx.size()`. -/
def HeartWidget.paint (size : Size) (data : AppState) : List DrawCommand :=
  [.stroke (heartPath size data.time) (Color.rgb8 0 0 0) 4.0,
   .fill (heartPath size data.time) (Color.rgb8 255 0 0)]

/-- The bottom tip of the heart: `(center.x, center.y + height / 2.0)`. -/
def bottomTip (size : Size) (time : ℝ) : Point :=
  ⟨size.width / 2.0, size.height / 2.0 + heartHeight size time / 2.0⟩

/-- The top notch of the heart: `(center.x, center.y - height / 4.0)`. -/
def topNotch (size : Size) (time : ℝ) : Point :=
  ⟨size.width / 2.0, size.height / 2.0 - heartHeight size time / 4.0⟩

/-- The start point of a bezier path: the point of a leading `move_to`. -/
def pathStartPoint : List PathEl → Option Point
  | .moveTo p :: _ => some p
  | _ => none

/-- The end point of a path element, when it is a curve segment. -/
def segmentEnd : PathEl → Option Point
  | .curveTo _ _ p3 => some p3
  | _ => none

/-- The end point of the final curve segment of a path. -/
def finalSegmentEnd (els : List PathEl) : Option Point :=
  (els.filterMap segmentEnd).getLast?

/-- Reflection of a point across the vertical line `x = cx`. -/
def reflectX (cx : ℝ) (p : Point) : Point := ⟨2 * cx - p.x, p.y⟩

/-- A host callback into the widget, as dispatched by druid's event loop:
`event`, `lifecycle`, `update`, `layout` or `paint`. -/
inductive Callback where
  | ev (e : Event)
  | lc (l : LifeCycle)
  | upd
  | lay (bc : BoxConstraints)
  | pnt (s : Size)

/-- The effect of one host callback on the application state.  Only
`event` receives `&mut AppState`; `lifecycle`, `update`, `layout` and
`paint` take the state by shared reference and cannot change it. -/
def stepState (data : AppState) (c : Callback) : AppState :=
  match c with
  | .ev e => (HeartWidget.event e data).1
  | .lc _ => data
  | .upd => data
  | .lay _ => data
  | .pnt _ => data

/-- The state after a sequence of host callbacks. -/
def runCallbacks (data : AppState) (cs : List Callback) : AppState :=
  cs.foldl stepState data

/-- `druid::PlatformError`, as returned by `AppLauncher::launch`; its
content is irrelevant to `main`. -/
structure PlatformError where
  code : ℕ

/-- The diagnostic message passed to `.expect(...)` in `main`
(src/main.rs line 152). -/
def launchErrorMessage : String := "Failed to launch application"

/-- The outcome of `main` (src/main.rs lines 142–153) as a function of the
result of `AppLauncher::launch`: `.expect("Failed to launch application")`
panics with that message on `Err` and returns normally on `Ok`. -/
def mainResult (launch : Except PlatformError Unit) : Except String Unit :=
  match launch with
  | .ok _ => .ok ()
  | .error _ => .error launchErrorMessage

lemma stepState_time_le (data : AppState) (c : Callback) :
    data.time ≤ (stepState data c).time := by
  cases c with
  | ev e =>
    cases e with
    | animFrame nanos =>
      simp only [stepState, HeartWidget.event]
      norm_num
    | other => exact le_refl _
  | lc l => exact le_refl _
  | upd => exact le_refl _
  | lay bc => exact le_refl _
  | pnt s => exact le_refl _

lemma runCallbacks_time_le (cs : List Callback) (data : AppState) :
    data.time ≤ (runCallbacks data cs).time := by
  induction cs generalizing data with
  | nil => exact le_refl _
  | cons c cs ih =>
    exact le_trans (stepState_time_le data c) (ih (stepState data c))

/-- C1: for every `AnimFrame` event, `HeartWidget::event` increases `time`
by exactly `0.016` (independently of the delta carried by the event, which
is matched with `_`), issues exactly one `request_anim_frame` and exactly
one `request_paint`, and changes nothing else in the state. -/
theorem event_animFrame_spec (nanos : ℕ) (s : AppState) :
    HeartWidget.event (Event.animFrame nanos) s = (⟨s.time + 0.016⟩, ⟨1, 1⟩) := rfl

/-- Witness for C1 at a concrete event delta and state. -/
theorem event_animFrame_spec_witness :
    HeartWidget.event (Event.animFrame 16000000) ⟨0⟩ = (⟨(0 : ℝ) + 0.016⟩, ⟨1, 1⟩) :=
  event_animFrame_spec 16000000 ⟨0⟩

/-- C2: the scale factor computed in `paint` equals
`1.0 + 0.1 * sin(t * 3.0)`, lies in `[0.9, 1.1]`, equals `1.0` at `t = 0`,
equals `1.1` when `sin(3t) = 1`, and equals `0.9` when `sin(3t) = -1`. -/
theorem scaleFactor_spec (t : ℝ) :
    scaleFactor t = 1.0 + 0.1 * Real.sin (t * 3.0) ∧
    0.9 ≤ scaleFactor t ∧ scaleFactor t ≤ 1.1 ∧
    scaleFactor 0 = 1.0 ∧
    (Real.sin (t * 3.0) = 1 → scaleFactor t = 1.1) ∧
    (Real.sin (t * 3.0) = -1 → scaleFactor t = 0.9) := by
  refine ⟨rfl, ?_, ?_, ?_, ?_, ?_⟩
  · have h := Real.neg_one_le_sin (t * 3.0)
    simp only [scaleFactor]
    nlinarith
  · have h := Real.sin_le_one (t * 3.0)
    simp only [scaleFactor]
    nlinarith
  · norm_num [scaleFactor]
  · intro h
    simp only [scaleFactor, h]
    norm_num
  · intro h
    simp only [scaleFactor, h]
    norm_num

/-- Witness for C2: at `t = π/6`, `sin(3t) = 1` holds and the scale factor
is `1.1`. -/
theorem scaleFactor_spec_witness :
    Real.sin (Real.pi / 6 * 3.0) = 1 ∧ scaleFactor (Real.pi / 6) = 1.1 := by
  have h : Real.sin (Real.pi / 6 * 3.0) = 1 := by
    rw [show Real.pi / 6 * 3.0 = Real.pi / 2 by ring]
    exact Real.sin_pi_div_two
  exact ⟨h, (scaleFactor_spec (Real.pi / 6)).2.2.2.2.1 h⟩

/-- C3: for box constraints with positive maximum width and height,
`HeartWidget::layout` returns exactly the maximum size. -/
theorem layout_spec (bc : BoxConstraints) (s : AppState)
    (hw : 0 < bc.maxSize.width) (hh : 0 < bc.maxSize.height) :
    HeartWidget.layout bc s = bc.maxSize := rfl

/-- Witness for C3 at the 400×400 window size. -/
theorem layout_spec_witness :
    HeartWidget.layout ⟨⟨0, 0⟩, ⟨400, 400⟩⟩ ⟨0⟩ = ⟨400, 400⟩ :=
  layout_spec ⟨⟨0, 0⟩, ⟨400, 400⟩⟩ ⟨0⟩ (by norm_num) (by norm_num)

/-- C4: for every viewport size and time, the heart path starts with a
`move_to` at the bottom tip, its first cubic segment ends at the top
notch, its second cubic segment ends back at the bottom tip, the path
ends with `close_path`, and the start point equals the end point of the
final curve segment. -/
theorem heartPath_structure (s : Size) (t : ℝ) :
    (∃ c1 c2 c3 c4,
      heartPath s t =
        [PathEl.moveTo (bottomTip s t),
         PathEl.curveTo c1 c2 (topNotch s t),
         PathEl.curveTo c3 c4 (bottomTip s t),
         PathEl.closePath]) ∧
    pathStartPoint (heartPath s t) = finalSegmentEnd (heartPath s t) := by
  exact ⟨⟨_, _, _, _, rfl⟩, rfl⟩

/-- Witness for C4 at a concrete viewport size and time. -/
theorem heartPath_structure_witness :
    pathStartPoint (heartPath ⟨400, 400⟩ 0) = finalSegmentEnd (heartPath ⟨400, 400⟩ 0) :=
  (heartPath_structure ⟨400, 400⟩ 0).2

/-- C5: over any sequence of host callbacks `time` never decreases; every
callback other than `event` on an `AnimFrame` leaves the state unchanged;
and the `AnimFrame` branch strictly increases `time`. -/
theorem time_monotone_spec (cs : List Callback) (d : AppState) :
    d.time ≤ (runCallbacks d cs).time ∧
    (∀ c x, (∀ nanos, c ≠ Callback.ev (Event.animFrame nanos)) → stepState x c = x) ∧
    (∀ nanos x, x.time < (stepState x (Callback.ev (Event.animFrame nanos))).time) := by
  refine ⟨runCallbacks_time_le cs d, ?_, ?_⟩
  · intro c x hc
    cases c with
    | ev e =>
      cases e with
      | animFrame nanos => exact absurd rfl (hc nanos)
      | other => rfl
    | lc l => rfl
    | upd => rfl
    | lay bc => rfl
    | pnt s => rfl
  · intro nanos x
    simp only [stepState, HeartWidget.event]
    norm_num

/-- Witness for C5 on a concrete callback sequence. -/
theorem time_monotone_spec_witness :
    (AppState.mk 0).time ≤
      (runCallbacks ⟨0⟩
        [Callback.ev (Event.animFrame 16), Callback.upd, Callback.lc LifeCycle.widgetAdded]).time :=
  (time_monotone_spec
    [Callback.ev (Event.animFrame 16), Callback.upd, Callback.lc LifeCycle.widgetAdded] ⟨0⟩).1

/-- C6: the scale factor is periodic with period `2π/3`. -/
theorem scaleFactor_periodic (t : ℝ) :
    scaleFactor (t + 2 * Real.pi / 3) = scaleFactor t := by
  simp only [scaleFactor]
  rw [show (t + 2 * Real.pi / 3) * 3.0 = t * 3.0 + 2 * Real.pi by ring]
  rw [Real.sin_add_two_pi]

/-- Witness for C6 at `t = 0`. -/
theorem scaleFactor_periodic_witness :
    scaleFactor (0 + 2 * Real.pi / 3) = scaleFactor 0 :=
  scaleFactor_periodic 0

/-- C7: `paint` is deterministic in the viewport size and `time`: equal
inputs produce the identical sequence of draw commands, and the function
reads nothing else (it is a pure function of these two inputs). -/
theorem paint_deterministic (s₁ s₂ : Size) (d₁ d₂ : AppState)
    (hs : s₁ = s₂) (ht : d₁.time = d₂.time) :
    HeartWidget.paint s₁ d₁ = HeartWidget.paint s₂ d₂ := by
  obtain ⟨t₁⟩ := d₁
  obtain ⟨t₂⟩ := d₂
  cases hs
  cases ht
  rfl

/-- Witness for C7 at a concrete viewport size and time. -/
theorem paint_deterministic_witness :
    HeartWidget.paint ⟨400, 400⟩ ⟨1⟩ = HeartWidget.paint ⟨400, 400⟩ ⟨1⟩ :=
  paint_deterministic ⟨400, 400⟩ ⟨400, 400⟩ ⟨1⟩ ⟨1⟩ rfl rfl

/-- C8: every `paint` call emits exactly two draw commands in order — a
stroke of the heart path with width 4.0, then a fill of the same path
with solid red — where the path uses half-dimensions
`heartWidth = min(w,h) * 0.25 * scale` and
`heartHeight = min(w,h) * 0.48 * scale`. -/
theorem paint_commands (s : Size) (d : AppState) :
    HeartWidget.paint s d =
      [DrawCommand.stroke (heartPath s d.time) (Color.rgb8 0 0 0) 4.0,
       DrawCommand.fill (heartPath s d.time) (Color.rgb8 255 0 0)] ∧
    heartWidth s d.time = min s.width s.height * 0.25 * scaleFactor d.time ∧
    heartHeight s d.time = min s.width s.height * 0.48 * scaleFactor d.time ∧
    heartPath s d.time =
      [PathEl.moveTo ⟨s.width / 2.0, s.height / 2.0 + heartHeight s d.time / 2.0⟩,
       PathEl.curveTo
         ⟨s.width / 2.0 - heartWidth s d.time, s.height / 2.0 + heartHeight s d.time / 4.0⟩
         ⟨s.width / 2.0 - heartWidth s d.time, s.height / 2.0 - heartHeight s d.time / 2.0⟩
         ⟨s.width / 2.0, s.height / 2.0 - heartHeight s d.time / 4.0⟩,
       PathEl.curveTo
         ⟨s.width / 2.0 + heartWidth s d.time, s.height / 2.0 - heartHeight s d.time / 2.0⟩
         ⟨s.width / 2.0 + heartWidth s d.time, s.height / 2.0 + heartHeight s d.time / 4.0⟩
         ⟨s.width / 2.0, s.height / 2.0 + heartHeight s d.time / 2.0⟩,
       PathEl.closePath] :=
  ⟨rfl, rfl, rfl, rfl⟩

/-- Witness for C8 at a concrete viewport size and state. -/
theorem paint_commands_witness :
    HeartWidget.paint ⟨400, 400⟩ ⟨0⟩ =
      [DrawCommand.stroke (heartPath ⟨400, 400⟩ (AppState.mk 0).time) (Color.rgb8 0 0 0) 4.0,
       DrawCommand.fill (heartPath ⟨400, 400⟩ (AppState.mk 0).time) (Color.rgb8 255 0 0)] :=
  (paint_commands ⟨400, 400⟩ ⟨0⟩).1

/-- C9: the only failure path is a launch failure at startup: an `Err`
from `AppLauncher::launch` terminates the process via the `.expect` panic
with the fixed message "Failed to launch application", an `Ok` launch
returns normally, and every widget callback is a total function (no
widget operation can fail after launch). -/
theorem main_failure_spec (e : PlatformError) :
    mainResult (Except.error e) = Except.error launchErrorMessage ∧
    launchErrorMessage = "Failed to launch application" ∧
    mainResult (Except.ok ()) = Except.ok () ∧
    (∀ ev d, HeartWidget.event ev d = HeartWidget.event ev d) := by
  exact ⟨rfl, rfl, rfl, fun _ _ => rfl⟩

/-- Witness for C9 at a concrete platform error. -/
theorem main_failure_spec_witness :
    mainResult (Except.error ⟨1⟩) = Except.error launchErrorMessage :=
  (main_failure_spec ⟨1⟩).1

/-- C10: the heart path is mirror-symmetric about the vertical line
`x = center.x`: the second cubic segment is the reflection of the first
across that line, traversed in reverse (its control points are the
x-mirrored control points of the first in reverse order, its end point the
mirrored start point), and the shared points on the axis are fixed by the
reflection. -/
theorem heartPath_symmetric (s : Size) (t : ℝ) :
    ∃ p0 c1 c2 p1,
      heartPath s t =
        [PathEl.moveTo p0,
         PathEl.curveTo c1 c2 p1,
         PathEl.curveTo (reflectX (s.width / 2.0) c2) (reflectX (s.width / 2.0) c1)
           (reflectX (s.width / 2.0) p0),
         PathEl.closePath] ∧
      reflectX (s.width / 2.0) p0 = p0 ∧ reflectX (s.width / 2.0) p1 = p1 := by
  refine ⟨bottomTip s t,
    ⟨s.width / 2.0 - heartWidth s t, s.height / 2.0 + heartHeight s t / 4.0⟩,
    ⟨s.width / 2.0 - heartWidth s t, s.height / 2.0 - heartHeight s t / 2.0⟩,
    topNotch s t, ?_, ?_, ?_⟩
  · simp only [heartPath, reflectX, bottomTip, topNotch, heartWidth, heartHeight, scaleFactor,
      List.cons.injEq, PathEl.moveTo.injEq, PathEl.curveTo.injEq, Point.mk.injEq, and_true]
    norm_num
    refine ⟨?_, ?_⟩ <;> ring
  · ext <;> simp [reflectX, bottomTip] <;> ring
  · ext <;> simp [reflectX, topNotch] <;> ring

/-- Witness for C10 at a concrete viewport size and time. -/
theorem heartPath_symmetric_witness :
    ∃ p0 c1 c2 p1,
      heartPath ⟨400, 400⟩ 0 =
        [PathEl.moveTo p0,
         PathEl.curveTo c1 c2 p1,
         PathEl.curveTo (reflectX ((400 : ℝ) / 2.0) c2) (reflectX ((400 : ℝ) / 2.0) c1)
           (reflectX ((400 : ℝ) / 2.0) p0),
         PathEl.closePath] ∧
      reflectX ((400 : ℝ) / 2.0) p0 = p0 ∧ reflectX ((400 : ℝ) / 2.0) p1 = p1 :=
  heartPath_symmetric ⟨400, 400⟩ 0

end BeatingHeart
